import Mathlib

/-!
Verification of the `bass-rs-old` wrapper (`src/lib.rs`, `src/error.rs`):
a thin safe-ownership binding over the native BASS audio engine.

The native engine is an opaque external collaborator reached through a fixed
numeric-handle interface.  We embed it as a record of response functions
(`Engine`) and embed every wrapper method as a pure function that returns its
result together with the ordered list of engine calls it issued
(`List EngineCall`).  Process-terminating `panic!` is modelled by `Outcome`.

Native `f32`/`f64` values are only marshalled through by the wrapper (no
arithmetic is performed on them), so they are modelled as exact rationals.
The embedding follows the `target_family = "unix"` branch of the source
(byte-oriented C strings); the `windows` branch is identical in control flow,
differing only in the wide-character transcoding step.
-/

namespace BassRs

/-! ## Native constants

These model the numeric constants imported from the external `bass-sys`
crate (values as in the native engine's `bass.h`).  Only their identities
and mutual distinctness matter to the wrapper's control flow. -/

def BASS_ERROR_MEM : Int := 1
def BASS_ERROR_FILEOPEN : Int := 2
def BASS_ERROR_FORMAT : Int := 6
def BASS_ERROR_START : Int := 9
def BASS_ERROR_SSL : Int := 10
def BASS_ERROR_NOTAUDIO : Int := 17
def BASS_ERROR_NOPLAY : Int := 24
def BASS_ERROR_NONET : Int := 32
def BASS_ERROR_TIMEOUT : Int := 40
def BASS_ERROR_FILEFORM : Int := 41
def BASS_ERROR_CODEC : Int := 44
def BASS_ERROR_UNSTREAMABLE : Int := 47
def BASS_ERROR_PROTOCOL : Int := 48

def BASS_ATTRIB_FREQ : Nat := 1
def BASS_ATTRIB_VOL : Nat := 2
def BASS_ATTRIB_PAN : Nat := 3
def BASS_ATTRIB_NOBUFFER : Nat := 5
def BASS_ATTRIB_SRC : Nat := 8
def BASS_ATTRIB_NET_RESUME : Nat := 9
def BASS_ATTRIB_NORAMP : Nat := 11
def BASS_ATTRIB_BITRATE : Nat := 12
def BASS_ATTRIB_BUFFER : Nat := 13
def BASS_ATTRIB_GRANULE : Nat := 14

/-! ## Error taxonomy (`src/error.rs` / `src/lib.rs`) -/

/-- The typed error enum `BassError`, one variant per source variant. -/
inductive BassError where
  | OutputIsPausedOrStopped
  | StreamIsNotPlayable
  | StreamIsNotPlaying
  | FileCouldNotBeOpened
  | InvalidFileFormat
  | InvalidFileContent
  | InvalidCodec
  | InvalidSampleFormat
  | InsufficientMemory
  | CouldNotInitialize3DSupport
  | NoInternetConnection
  | InvalidProtocol
  | SslSupportNotAvailable
  | UnstreamableFile
  | TimeOut
deriving DecidableEq, Repr

/-! ## The engine call surface -/

/-- One call issued by the wrapper to the native engine, with the argument
values the wrapper passes.  Text pointers are modelled by the byte string
they point to (null terminator omitted). -/
inductive EngineCall where
  | streamCreateFile (mem : Nat) (text : List Nat) (offset : Nat) (length : Nat) (flags : Nat)
  | streamCreateURL (text : List Nat) (offset : Nat) (flags : Nat)
  | streamFree (handle : Nat)
  | channelPlay (handle : Nat) (restart : Nat)
  | channelPause (handle : Nat)
  | channelStop (handle : Nat)
  | channelLock (handle : Nat) (lockFlag : Nat)
  | channelGetAttribute (handle : Nat) (attrib : Nat)
  | channelSetAttribute (handle : Nat) (attrib : Nat) (value : Rat)
  | channelGetPosition (handle : Nat) (mode : Nat)
  | channelBytes2Seconds (handle : Nat) (pos : Nat)
  | errorGetCode
deriving DecidableEq, Repr

/-- Returns `true` exactly on the URL-opening entry point of the collaborator
interface. -/
def EngineCall.isCreateURL : EngineCall → Bool
  | .streamCreateURL _ _ _ => true
  | _ => false

/-- Returns `true` exactly on the path-opening (file) entry point of the collaborator
interface. -/
def EngineCall.isCreateFile : EngineCall → Bool
  | .streamCreateFile _ _ _ _ _ => true
  | _ => false

/-- Returns `true` exactly on the free-stream operation. -/
def EngineCall.isStreamFree : EngineCall → Bool
  | .streamFree _ => true
  | _ => false

/-- One fixed behaviour of the opaque native engine: the value each call
returns, as a function of the arguments the wrapper passes.  `BOOL` results
are the raw integers the native functions return (`0` = failure), matching
the `== 0` tests in the source.  `channelGetAttribute` returns `some v` when
the call succeeds and writes `v` through the out-pointer, `none` when it
fails and leaves the out-parameter untouched. -/
structure Engine where
  streamCreateFile : Nat → List Nat → Nat → Nat → Nat → Nat
  streamCreateURL : List Nat → Nat → Nat → Nat
  streamFree : Nat → Nat
  errorGetCode : Int
  channelPlay : Nat → Nat → Nat
  channelPause : Nat → Nat
  channelStop : Nat → Nat
  channelLock : Nat → Nat → Nat
  channelGetAttribute : Nat → Nat → Option Rat
  channelSetAttribute : Nat → Nat → Rat → Nat
  channelGetPosition : Nat → Nat → Nat
  channelBytes2Seconds : Nat → Nat → Rat

/-! ## Rust-side plumbing -/

/-- Result of running a wrapper call: either a returned value or a Rust
`panic!` (process abort) with its message. -/
inductive Outcome (α : Type) where
  | ret (val : α)
  | panic (msg : String)
deriving DecidableEq, Repr

/-- Returns `true` exactly when the outcome is a `panic!`. -/
def Outcome.isPanic : Outcome α → Bool
  | .panic _ => true
  | .ret _ => false

/-- Models `CString::new` on a Rust string's UTF-8 bytes: fails (returns `none`)
exactly when the bytes contain a null byte, otherwise yields the same bytes
to be passed as a null-terminated C string. -/
def CString_new (bytes : List Nat) : Option (List Nat) :=
  if 0 ∈ bytes then none else some bytes

/-- The sole entity: an owning handle to one native channel. -/
structure Stream where
  handle : Nat
deriving DecidableEq, Repr

namespace Stream

/-- Embeds `Drop for Stream`: the destructor body, which issues `BASS_StreamFree`
on the stream's own handle (the boolean result is ignored).  Rust runs this
body exactly once per `Stream` value, when it goes out of scope. -/
def drop (engine : Engine) (s : Stream) : Unit × List EngineCall :=
  let _ := engine.streamFree s.handle
  ((), [EngineCall.streamFree s.handle])

/-- Embeds `Stream::create_from_file` (unix branch): transcode the path with
`CString::new(..).unwrap()`, call `BASS_StreamCreateFile(0, ptr, 0, 0, 0)`,
and on handle `0` classify `BASS_ErrorGetCode()`; unmapped codes `panic!`.
The source's panic message formats a second `BASS_ErrorGetCode()` query;
since the modelled engine is one fixed behaviour, that repeated read returns
the same code and is folded into the message string rather than recorded as
a separate trace event. -/
def create_from_file (engine : Engine) (file_name : List Nat) :
    Outcome (Except BassError Stream) × List EngineCall :=
  match CString_new file_name with
  | none => (Outcome.panic ("called `Option::unwrap()` on a `None` value"), [])
  | some file_name_raw =>
    let handle := engine.streamCreateFile 0 file_name_raw 0 0 0
    if handle = 0 then
      let error_code := engine.errorGetCode
      let result :=
        if error_code = BASS_ERROR_FILEOPEN then
          Outcome.ret (Except.error BassError.FileCouldNotBeOpened)
        else if error_code = BASS_ERROR_FILEFORM then
          Outcome.ret (Except.error BassError.InvalidFileFormat)
        else if error_code = BASS_ERROR_NOTAUDIO then
          Outcome.ret (Except.error BassError.InvalidFileContent)
        else if error_code = BASS_ERROR_CODEC then
          Outcome.ret (Except.error BassError.InvalidCodec)
        else if error_code = BASS_ERROR_FORMAT then
          Outcome.ret (Except.error BassError.InvalidSampleFormat)
        else if error_code = BASS_ERROR_MEM then
          Outcome.ret (Except.error BassError.InsufficientMemory)
        else
          Outcome.panic ("Failed to create the stream, error code: " ++ toString error_code)
      (result, [EngineCall.streamCreateFile 0 file_name_raw 0 0 0, EngineCall.errorGetCode])
    else
      (Outcome.ret (Except.ok { handle := handle }),
        [EngineCall.streamCreateFile 0 file_name_raw 0 0 0])

/-- Embeds `Stream::create_from_url` (unix branch): transcode the URL with
`CString::new(..).unwrap()`, then — as written in the source — call
`BASS_StreamCreateFile(0, ptr, 0, 0, 0)` (not `BASS_StreamCreateURL`),
reclaim the native string via `CString::from_raw`, and on handle `0`
classify `BASS_ErrorGetCode()` over the URL error table; unmapped codes
`panic!`. -/
def create_from_url (engine : Engine) (url : List Nat) :
    Outcome (Except BassError Stream) × List EngineCall :=
  match CString_new url with
  | none => (Outcome.panic ("called `Option::unwrap()` on a `None` value"), [])
  | some url_raw =>
    let handle := engine.streamCreateFile 0 url_raw 0 0 0
    if handle = 0 then
      let error_code := engine.errorGetCode
      let result :=
        if error_code = BASS_ERROR_NONET then
          Outcome.ret (Except.error BassError.NoInternetConnection)
        else if error_code = BASS_ERROR_PROTOCOL then
          Outcome.ret (Except.error BassError.InvalidProtocol)
        else if error_code = BASS_ERROR_SSL then
          Outcome.ret (Except.error BassError.SslSupportNotAvailable)
        else if error_code = BASS_ERROR_TIMEOUT then
          Outcome.ret (Except.error BassError.TimeOut)
        else if error_code = BASS_ERROR_FILEOPEN then
          Outcome.ret (Except.error BassError.FileCouldNotBeOpened)
        else if error_code = BASS_ERROR_FILEFORM then
          Outcome.ret (Except.error BassError.InvalidFileFormat)
        else if error_code = BASS_ERROR_UNSTREAMABLE then
          Outcome.ret (Except.error BassError.UnstreamableFile)
        else if error_code = BASS_ERROR_NOTAUDIO then
          Outcome.ret (Except.error BassError.InvalidFileContent)
        else if error_code = BASS_ERROR_CODEC then
          Outcome.ret (Except.error BassError.InvalidCodec)
        else if error_code = BASS_ERROR_FORMAT then
          Outcome.ret (Except.error BassError.InvalidSampleFormat)
        else if error_code = BASS_ERROR_MEM then
          Outcome.ret (Except.error BassError.InsufficientMemory)
        else
          Outcome.panic ("Failed to create the stream, error code: " ++ toString error_code)
      (result, [EngineCall.streamCreateFile 0 url_raw 0 0 0, EngineCall.errorGetCode])
    else
      (Outcome.ret (Except.ok { handle := handle }),
        [EngineCall.streamCreateFile 0 url_raw 0 0 0])

/-- Embeds `Stream::play`: `BASS_ChannelPlay(handle, 0)`; on failure,
`BASS_ERROR_START` maps to `OutputIsPausedOrStopped`, anything else
`panic!`s. -/
def play (engine : Engine) (s : Stream) :
    Outcome (Except BassError Unit) × List EngineCall :=
  if engine.channelPlay s.handle 0 = 0 then
    let error_code := engine.errorGetCode
    let t1 := [EngineCall.channelPlay s.handle 0, EngineCall.errorGetCode]
    if error_code = BASS_ERROR_START then
      (Outcome.ret (Except.error BassError.OutputIsPausedOrStopped), t1)
    else
      (Outcome.panic ("Failed to play the stream, error code: " ++ toString error_code), t1)
  else
    (Outcome.ret (Except.ok ()), [EngineCall.channelPlay s.handle 0])

/-- Embeds `Stream::pause`: `BASS_ChannelPause(handle)`; on failure,
`BASS_ERROR_NOPLAY` maps to `StreamIsNotPlaying`, anything else `panic!`s. -/
def pause (engine : Engine) (s : Stream) :
    Outcome (Except BassError Unit) × List EngineCall :=
  if engine.channelPause s.handle = 0 then
    let error_code := engine.errorGetCode
    let t1 := [EngineCall.channelPause s.handle, EngineCall.errorGetCode]
    if error_code = BASS_ERROR_NOPLAY then
      (Outcome.ret (Except.error BassError.StreamIsNotPlaying), t1)
    else
      (Outcome.panic ("Failed to pause the stream, error code: " ++ toString error_code), t1)
  else
    (Outcome.ret (Except.ok ()), [EngineCall.channelPause s.handle])

/-- Embeds `Stream::stop`: `BASS_ChannelStop(handle)`; any failure `panic!`s (the
panic message formats a `BASS_ErrorGetCode()` call). -/
def stop (engine : Engine) (s : Stream) :
    Outcome (Except BassError Unit) × List EngineCall :=
  if engine.channelStop s.handle = 0 then
    (Outcome.panic ("Failed to stop the stream, error code: " ++ toString engine.errorGetCode),
      [EngineCall.channelStop s.handle])
  else
    (Outcome.ret (Except.ok ()), [EngineCall.channelStop s.handle])

/-- Embeds `Stream::lock`: `BASS_ChannelLock(handle, 1)`; any failure `panic!`s. -/
def lock (engine : Engine) (s : Stream) : Outcome Unit × List EngineCall :=
  if engine.channelLock s.handle 1 = 0 then
    (Outcome.panic ("Failed to lock the stream, error code: " ++ toString engine.errorGetCode),
      [EngineCall.channelLock s.handle 1])
  else
    (Outcome.ret (), [EngineCall.channelLock s.handle 1])

/-- Embeds `Stream::unlock`: `BASS_ChannelLock(handle, 0)`; any failure `panic!`s. -/
def unlock (engine : Engine) (s : Stream) : Outcome Unit × List EngineCall :=
  if engine.channelLock s.handle 0 = 0 then
    (Outcome.panic ("Failed to unlock the stream, error code: " ++ toString engine.errorGetCode),
      [EngineCall.channelLock s.handle 0])
  else
    (Outcome.ret (), [EngineCall.channelLock s.handle 0])

/-- Embeds `Stream::get_bit_rate`: out-parameter initialised to `0.0`, then
`BASS_ChannelGetAttribute(handle, BASS_ATTRIB_BITRATE, &out)`; the out value
is returned whether or not the call succeeded. -/
def get_bit_rate (engine : Engine) (s : Stream) : Rat × List EngineCall :=
  let bit_rate : Rat := 0
  let bit_rate := (engine.channelGetAttribute s.handle BASS_ATTRIB_BITRATE).getD bit_rate
  (bit_rate, [EngineCall.channelGetAttribute s.handle BASS_ATTRIB_BITRATE])

/-- Embeds `Stream::get_buffering_length`: same pattern, keyed by
`BASS_ATTRIB_BUFFER`. -/
def get_buffering_length (engine : Engine) (s : Stream) : Rat × List EngineCall :=
  let buffering_length : Rat := 0
  let buffering_length := (engine.channelGetAttribute s.handle BASS_ATTRIB_BUFFER).getD buffering_length
  (buffering_length, [EngineCall.channelGetAttribute s.handle BASS_ATTRIB_BUFFER])

/-- Embeds `Stream::get_sample_rate`: same pattern, keyed by `BASS_ATTRIB_FREQ`. -/
def get_sample_rate (engine : Engine) (s : Stream) : Rat × List EngineCall :=
  let sample_rate : Rat := 0
  let sample_rate := (engine.channelGetAttribute s.handle BASS_ATTRIB_FREQ).getD sample_rate
  (sample_rate, [EngineCall.channelGetAttribute s.handle BASS_ATTRIB_FREQ])

/-- Embeds `Stream::get_processing_granularity`: same pattern, keyed by
`BASS_ATTRIB_GRANULE`. -/
def get_processing_granularity (engine : Engine) (s : Stream) : Rat × List EngineCall :=
  let processing_granularity : Rat := 0
  let processing_granularity := (engine.channelGetAttribute s.handle BASS_ATTRIB_GRANULE).getD processing_granularity
  (processing_granularity, [EngineCall.channelGetAttribute s.handle BASS_ATTRIB_GRANULE])

/-- Embeds `Stream::get_buffer_level_required_to_resume_stalled_playback`: same
pattern, keyed by `BASS_ATTRIB_NET_RESUME`. -/
def get_buffer_level_required_to_resume_stalled_playback (engine : Engine) (s : Stream) :
    Rat × List EngineCall :=
  let level : Rat := 0
  let level := (engine.channelGetAttribute s.handle BASS_ATTRIB_NET_RESUME).getD level
  (level, [EngineCall.channelGetAttribute s.handle BASS_ATTRIB_NET_RESUME])

/-- Embeds `Stream::get_playback_buffering_switch`: same pattern, keyed by
`BASS_ATTRIB_NOBUFFER`. -/
def get_playback_buffering_switch (engine : Engine) (s : Stream) : Rat × List EngineCall :=
  let sw : Rat := 0
  let sw := (engine.channelGetAttribute s.handle BASS_ATTRIB_NOBUFFER).getD sw
  (sw, [EngineCall.channelGetAttribute s.handle BASS_ATTRIB_NOBUFFER])

/-- Embeds `Stream::get_playback_ramping_switch`: same pattern, keyed by
`BASS_ATTRIB_NORAMP`. -/
def get_playback_ramping_switch (engine : Engine) (s : Stream) : Rat × List EngineCall :=
  let sw : Rat := 0
  let sw := (engine.channelGetAttribute s.handle BASS_ATTRIB_NORAMP).getD sw
  (sw, [EngineCall.channelGetAttribute s.handle BASS_ATTRIB_NORAMP])

/-- Embeds `Stream::get_panning_position`: same pattern, keyed by
`BASS_ATTRIB_PAN`. -/
def get_panning_position (engine : Engine) (s : Stream) : Rat × List EngineCall :=
  let pan : Rat := 0
  let pan := (engine.channelGetAttribute s.handle BASS_ATTRIB_PAN).getD pan
  (pan, [EngineCall.channelGetAttribute s.handle BASS_ATTRIB_PAN])

/-- Embeds `Stream::get_sample_rate_conversion_quality`: same pattern, keyed by
`BASS_ATTRIB_SRC`. -/
def get_sample_rate_conversion_quality (engine : Engine) (s : Stream) : Rat × List EngineCall :=
  let quality : Rat := 0
  let quality := (engine.channelGetAttribute s.handle BASS_ATTRIB_SRC).getD quality
  (quality, [EngineCall.channelGetAttribute s.handle BASS_ATTRIB_SRC])

/-- Embeds `Stream::get_volume`: same pattern, keyed by `BASS_ATTRIB_VOL`. -/
def get_volume (engine : Engine) (s : Stream) : Rat × List EngineCall :=
  let volume : Rat := 0
  let volume := (engine.channelGetAttribute s.handle BASS_ATTRIB_VOL).getD volume
  (volume, [EngineCall.channelGetAttribute s.handle BASS_ATTRIB_VOL])

/-- Embeds `Stream::set_buffering_length`:
`BASS_ChannelSetAttribute(handle, BASS_ATTRIB_BUFFER, value)`, boolean
result discarded. -/
def set_buffering_length (engine : Engine) (s : Stream) (value : Rat) :
    Unit × List EngineCall :=
  let _ := engine.channelSetAttribute s.handle BASS_ATTRIB_BUFFER value
  ((), [EngineCall.channelSetAttribute s.handle BASS_ATTRIB_BUFFER value])

/-- Embeds `Stream::set_sample_rate`: same pattern, keyed by `BASS_ATTRIB_FREQ`. -/
def set_sample_rate (engine : Engine) (s : Stream) (value : Rat) :
    Unit × List EngineCall :=
  let _ := engine.channelSetAttribute s.handle BASS_ATTRIB_FREQ value
  ((), [EngineCall.channelSetAttribute s.handle BASS_ATTRIB_FREQ value])

/-- Embeds `Stream::set_processing_granularity`: same pattern, keyed by
`BASS_ATTRIB_GRANULE`. -/
def set_processing_granularity (engine : Engine) (s : Stream) (value : Rat) :
    Unit × List EngineCall :=
  let _ := engine.channelSetAttribute s.handle BASS_ATTRIB_GRANULE value
  ((), [EngineCall.channelSetAttribute s.handle BASS_ATTRIB_GRANULE value])

/-- Embeds `Stream::set_buffer_level_required_to_resume_stalled_playback`: same
pattern, keyed by `BASS_ATTRIB_NET_RESUME`. -/
def set_buffer_level_required_to_resume_stalled_playback (engine : Engine) (s : Stream)
    (value : Rat) : Unit × List EngineCall :=
  let _ := engine.channelSetAttribute s.handle BASS_ATTRIB_NET_RESUME value
  ((), [EngineCall.channelSetAttribute s.handle BASS_ATTRIB_NET_RESUME value])

/-- Embeds `Stream::set_playback_buffering_switch`: same pattern, keyed by
`BASS_ATTRIB_NOBUFFER`. -/
def set_playback_buffering_switch (engine : Engine) (s : Stream) (value : Rat) :
    Unit × List EngineCall :=
  let _ := engine.channelSetAttribute s.handle BASS_ATTRIB_NOBUFFER value
  ((), [EngineCall.channelSetAttribute s.handle BASS_ATTRIB_NOBUFFER value])

/-- Embeds `Stream::set_playback_ramping_switch`: same pattern, keyed by
`BASS_ATTRIB_NORAMP`. -/
def set_playback_ramping_switch (engine : Engine) (s : Stream) (value : Rat) :
    Unit × List EngineCall :=
  let _ := engine.channelSetAttribute s.handle BASS_ATTRIB_NORAMP value
  ((), [EngineCall.channelSetAttribute s.handle BASS_ATTRIB_NORAMP value])

/-- Embeds `Stream::set_panning_position`: same pattern, keyed by
`BASS_ATTRIB_PAN`. -/
def set_panning_position (engine : Engine) (s : Stream) (value : Rat) :
    Unit × List EngineCall :=
  let _ := engine.channelSetAttribute s.handle BASS_ATTRIB_PAN value
  ((), [EngineCall.channelSetAttribute s.handle BASS_ATTRIB_PAN value])

/-- Embeds `Stream::set_volume`: same pattern, keyed by `BASS_ATTRIB_VOL`. -/
def set_volume (engine : Engine) (s : Stream) (value : Rat) :
    Unit × List EngineCall :=
  let _ := engine.channelSetAttribute s.handle BASS_ATTRIB_VOL value
  ((), [EngineCall.channelSetAttribute s.handle BASS_ATTRIB_VOL value])

/-- Embeds `Stream::get_position`: `BASS_ChannelGetPosition(handle, 0)`, returned
unchanged. -/
def get_position (engine : Engine) (s : Stream) : Nat × List EngineCall :=
  (engine.channelGetPosition s.handle 0, [EngineCall.channelGetPosition s.handle 0])

/-- Embeds `Stream::get_time`: `BASS_ChannelBytes2Seconds(handle, get_position())`
— the byte position obtained from `get_position` is fed, unchanged, to the
engine's byte-to-seconds conversion, whose result is returned unchanged. -/
def get_time (engine : Engine) (s : Stream) : Rat × List EngineCall :=
  let pos := get_position engine s
  (engine.channelBytes2Seconds s.handle pos.1,
    pos.2 ++ [EngineCall.channelBytes2Seconds s.handle pos.1])

/-- Embeds `Stream::get_raw_handle`: exposes the underlying native handle. -/
def get_raw_handle (s : Stream) : Nat :=
  s.handle

end Stream

/-! ## The attribute surface, read off the `impl Stream` block

One entry per getter (resp. setter) method of the source, in source order;
each entry is the `BASS_ATTRIB_*` identifier that method's body passes to
the engine's generic attribute interface. -/

/-- Attribute identifiers for which `Stream` exposes a getter:
`get_bit_rate`, `get_buffering_length`, `get_sample_rate`,
`get_processing_granularity`,
`get_buffer_level_required_to_resume_stalled_playback`,
`get_playback_buffering_switch`, `get_playback_ramping_switch`,
`get_panning_position`, `get_sample_rate_conversion_quality`,
`get_volume`. -/
def exposedGetterIds : List Nat :=
  [BASS_ATTRIB_BITRATE, BASS_ATTRIB_BUFFER, BASS_ATTRIB_FREQ, BASS_ATTRIB_GRANULE,
   BASS_ATTRIB_NET_RESUME, BASS_ATTRIB_NOBUFFER, BASS_ATTRIB_NORAMP, BASS_ATTRIB_PAN,
   BASS_ATTRIB_SRC, BASS_ATTRIB_VOL]

/-- Attribute identifiers for which `Stream` exposes a setter:
`set_buffering_length`, `set_sample_rate`, `set_processing_granularity`,
`set_buffer_level_required_to_resume_stalled_playback`,
`set_playback_buffering_switch`, `set_playback_ramping_switch`,
`set_panning_position`, `set_volume`.  The source has no setter for the bit
rate or the sample-rate-conversion quality. -/
def exposedSetterIds : List Nat :=
  [BASS_ATTRIB_BUFFER, BASS_ATTRIB_FREQ, BASS_ATTRIB_GRANULE, BASS_ATTRIB_NET_RESUME,
   BASS_ATTRIB_NOBUFFER, BASS_ATTRIB_NORAMP, BASS_ATTRIB_PAN, BASS_ATTRIB_VOL]

/-- The ten attributes of the spec, by identifier: bit rate, buffering
length, sample rate, processing granularity, resume-buffer threshold,
no-buffer switch, no-ramp switch, panning position, sample-rate-conversion
quality, volume. -/
def tenSpecAttributeIds : List Nat :=
  [BASS_ATTRIB_BITRATE, BASS_ATTRIB_BUFFER, BASS_ATTRIB_FREQ, BASS_ATTRIB_GRANULE,
   BASS_ATTRIB_NET_RESUME, BASS_ATTRIB_NOBUFFER, BASS_ATTRIB_NORAMP, BASS_ATTRIB_PAN,
   BASS_ATTRIB_SRC, BASS_ATTRIB_VOL]

/-! ## Concrete mock engines and inputs, used to instantiate the theorems -/

/-- A benign mock engine: every operation succeeds, streams get handle 42,
the playback position is byte 1000, byte-to-seconds divides by 44100. -/
def baseEngine : Engine where
  streamCreateFile := fun _ _ _ _ _ => 42
  streamCreateURL := fun _ _ _ => 42
  streamFree := fun _ => 1
  errorGetCode := 0
  channelPlay := fun _ _ => 1
  channelPause := fun _ => 1
  channelStop := fun _ => 1
  channelLock := fun _ _ => 1
  channelGetAttribute := fun _ _ => some 1
  channelSetAttribute := fun _ _ _ => 1
  channelGetPosition := fun _ _ => 1000
  channelBytes2Seconds := fun _ pos => (pos : Rat) / 44100

/-- Mock engine whose stream creation fails with last error "file open
failed". -/
def fileOpenFailEngine : Engine :=
  { baseEngine with
      streamCreateFile := fun _ _ _ _ _ => 0
      errorGetCode := BASS_ERROR_FILEOPEN }

/-- Mock engine whose stream creation fails with last error "no internet
connection". -/
def noNetFailEngine : Engine :=
  { baseEngine with
      streamCreateFile := fun _ _ _ _ _ => 0
      errorGetCode := BASS_ERROR_NONET }

/-- Mock engine whose channel-play call fails with the cannot-start code. -/
def playFailEngine : Engine :=
  { baseEngine with
      channelPlay := fun _ _ => 0
      errorGetCode := BASS_ERROR_START }

/-- Mock engine whose channel-pause call fails with the not-playing code. -/
def pauseFailEngine : Engine :=
  { baseEngine with
      channelPause := fun _ => 0
      errorGetCode := BASS_ERROR_NOPLAY }

/-- Mock engine whose stop and lock/unlock calls all fail. -/
def transportFailEngine : Engine :=
  { baseEngine with
      channelStop := fun _ => 0
      channelLock := fun _ _ => 0
      errorGetCode := 5 }

/-- Mock engine whose get-attribute call always fails (out-parameter left
untouched). -/
def attribFailEngine : Engine :=
  { baseEngine with
      channelGetAttribute := fun _ _ => none
      channelSetAttribute := fun _ _ _ => 0 }

/-- UTF-8 bytes of the test path "a.mp3". -/
def testPath : List Nat := [97, 46, 109, 112, 51]

/-- UTF-8 bytes of the test URL "http://a". -/
def testUrl : List Nat := [104, 116, 116, 112, 58, 47, 47, 97]

/-- A byte string containing an interior null byte: "h\x00i". -/
def nullBytes : List Nat := [104, 0, 105]

/-- A stream with handle 42, as produced by a successful construction on
`baseEngine`. -/
def testStream : Stream := { handle := 42 }

/-! ## Claim theorems -/

/-- Claim C1 (code bug): the spec requires `create_from_url` to request the
stream from the engine's open-stream-from-url operation, but the source
calls `BASS_StreamCreateFile` — the open-stream-from-path entry point.  For
every engine and every URL, the call trace of `create_from_url` contains no
URL-open call; at the concrete URL "http://a" on the benign mock engine the
trace is exactly one path-open call carrying the URL bytes. -/
theorem create_from_url_uses_path_open_bug :
    (∀ (e : Engine) (url : List Nat),
      ((Stream.create_from_url e url).2.all fun c => !c.isCreateURL) = true) ∧
    (Stream.create_from_url baseEngine testUrl).2 =
      [EngineCall.streamCreateFile 0 testUrl 0 0 0] := by
  constructor
  · intro e url
    unfold Stream.create_from_url
    cases hc : CString_new url with
    | none => rfl
    | some raw =>
      by_cases h0 : e.streamCreateFile 0 raw 0 0 0 = 0 <;>
        simp [h0, EngineCall.isCreateURL]
  · decide

/-- Claim C2: for every path without a null byte, when the engine returns
handle 0 from the file-open call, `create_from_file` classifies the engine's
last error code into exactly the six mapped variants — file-open-failed to
`FileCouldNotBeOpened`, file-format to `InvalidFileFormat`, not-audio to
`InvalidFileContent`, codec to `InvalidCodec`, sample-format to
`InvalidSampleFormat`, out-of-memory to `InsufficientMemory` — and every
other error code makes the call `panic!` instead of returning. -/
theorem create_from_file_error_mapping (e : Engine) (file_name : List Nat)
    (hnull : (0 : Nat) ∉ file_name)
    (h0 : e.streamCreateFile 0 file_name 0 0 0 = 0) :
    (e.errorGetCode = BASS_ERROR_FILEOPEN →
      (Stream.create_from_file e file_name).1 =
        Outcome.ret (Except.error BassError.FileCouldNotBeOpened)) ∧
    (e.errorGetCode = BASS_ERROR_FILEFORM →
      (Stream.create_from_file e file_name).1 =
        Outcome.ret (Except.error BassError.InvalidFileFormat)) ∧
    (e.errorGetCode = BASS_ERROR_NOTAUDIO →
      (Stream.create_from_file e file_name).1 =
        Outcome.ret (Except.error BassError.InvalidFileContent)) ∧
    (e.errorGetCode = BASS_ERROR_CODEC →
      (Stream.create_from_file e file_name).1 =
        Outcome.ret (Except.error BassError.InvalidCodec)) ∧
    (e.errorGetCode = BASS_ERROR_FORMAT →
      (Stream.create_from_file e file_name).1 =
        Outcome.ret (Except.error BassError.InvalidSampleFormat)) ∧
    (e.errorGetCode = BASS_ERROR_MEM →
      (Stream.create_from_file e file_name).1 =
        Outcome.ret (Except.error BassError.InsufficientMemory)) ∧
    (e.errorGetCode ∉ [BASS_ERROR_FILEOPEN, BASS_ERROR_FILEFORM, BASS_ERROR_NOTAUDIO,
        BASS_ERROR_CODEC, BASS_ERROR_FORMAT, BASS_ERROR_MEM] →
      ((Stream.create_from_file e file_name).1).isPanic = true) := by
  have hc : CString_new file_name = some file_name := by
    simp [CString_new, hnull]
  refine ⟨?_, ?_, ?_, ?_, ?_, ?_, ?_⟩ <;> intro he
  case _ => simp [Stream.create_from_file, hc, h0, he]
  case _ =>
    simp [Stream.create_from_file, hc, h0, he,
      BASS_ERROR_FILEOPEN, BASS_ERROR_FILEFORM]
  case _ =>
    simp [Stream.create_from_file, hc, h0, he,
      BASS_ERROR_FILEOPEN, BASS_ERROR_FILEFORM, BASS_ERROR_NOTAUDIO]
  case _ =>
    simp [Stream.create_from_file, hc, h0, he,
      BASS_ERROR_FILEOPEN, BASS_ERROR_FILEFORM, BASS_ERROR_NOTAUDIO, BASS_ERROR_CODEC]
  case _ =>
    simp [Stream.create_from_file, hc, h0, he,
      BASS_ERROR_FILEOPEN, BASS_ERROR_FILEFORM, BASS_ERROR_NOTAUDIO, BASS_ERROR_CODEC,
      BASS_ERROR_FORMAT]
  case _ =>
    simp [Stream.create_from_file, hc, h0, he,
      BASS_ERROR_FILEOPEN, BASS_ERROR_FILEFORM, BASS_ERROR_NOTAUDIO, BASS_ERROR_CODEC,
      BASS_ERROR_FORMAT, BASS_ERROR_MEM]
  case _ =>
    simp only [List.mem_cons, List.not_mem_nil, or_false, not_or] at he
    obtain ⟨h1, h2, h3, h4, h5, h6⟩ := he
    simp [Stream.create_from_file, hc, h0, h1, h2, h3, h4, h5, h6, Outcome.isPanic]

/-- Witness for C2: on a mock engine that fails file-open with the
file-open-failed code, `create_from_file` on the test path returns
`FileCouldNotBeOpened`. -/
theorem create_from_file_error_mapping_witness :
    (Stream.create_from_file fileOpenFailEngine testPath).1 =
      Outcome.ret (Except.error BassError.FileCouldNotBeOpened) :=
  (create_from_file_error_mapping fileOpenFailEngine testPath (by decide) rfl).1 rfl

/-- Claim C3: for every URL without a null byte, when the engine returns
handle 0, `create_from_url` classifies the engine's last error code into
exactly the eleven mapped variants — no-net to `NoInternetConnection`,
protocol to `InvalidProtocol`, ssl to `SslSupportNotAvailable`, timeout to
`TimeOut`, file-open-failed to `FileCouldNotBeOpened`, file-format to
`InvalidFileFormat`, unstreamable to `UnstreamableFile`, not-audio to
`InvalidFileContent`, codec to `InvalidCodec`, sample-format to
`InvalidSampleFormat`, out-of-memory to `InsufficientMemory` — and every
other error code makes the call `panic!` instead of returning. -/
theorem create_from_url_error_mapping (e : Engine) (url : List Nat)
    (hnull : (0 : Nat) ∉ url)
    (h0 : e.streamCreateFile 0 url 0 0 0 = 0) :
    (e.errorGetCode = BASS_ERROR_NONET →
      (Stream.create_from_url e url).1 =
        Outcome.ret (Except.error BassError.NoInternetConnection)) ∧
    (e.errorGetCode = BASS_ERROR_PROTOCOL →
      (Stream.create_from_url e url).1 =
        Outcome.ret (Except.error BassError.InvalidProtocol)) ∧
    (e.errorGetCode = BASS_ERROR_SSL →
      (Stream.create_from_url e url).1 =
        Outcome.ret (Except.error BassError.SslSupportNotAvailable)) ∧
    (e.errorGetCode = BASS_ERROR_TIMEOUT →
      (Stream.create_from_url e url).1 =
        Outcome.ret (Except.error BassError.TimeOut)) ∧
    (e.errorGetCode = BASS_ERROR_FILEOPEN →
      (Stream.create_from_url e url).1 =
        Outcome.ret (Except.error BassError.FileCouldNotBeOpened)) ∧
    (e.errorGetCode = BASS_ERROR_FILEFORM →
      (Stream.create_from_url e url).1 =
        Outcome.ret (Except.error BassError.InvalidFileFormat)) ∧
    (e.errorGetCode = BASS_ERROR_UNSTREAMABLE →
      (Stream.create_from_url e url).1 =
        Outcome.ret (Except.error BassError.UnstreamableFile)) ∧
    (e.errorGetCode = BASS_ERROR_NOTAUDIO →
      (Stream.create_from_url e url).1 =
        Outcome.ret (Except.error BassError.InvalidFileContent)) ∧
    (e.errorGetCode = BASS_ERROR_CODEC →
      (Stream.create_from_url e url).1 =
        Outcome.ret (Except.error BassError.InvalidCodec)) ∧
    (e.errorGetCode = BASS_ERROR_FORMAT →
      (Stream.create_from_url e url).1 =
        Outcome.ret (Except.error BassError.InvalidSampleFormat)) ∧
    (e.errorGetCode = BASS_ERROR_MEM →
      (Stream.create_from_url e url).1 =
        Outcome.ret (Except.error BassError.InsufficientMemory)) ∧
    (e.errorGetCode ∉ [BASS_ERROR_NONET, BASS_ERROR_PROTOCOL, BASS_ERROR_SSL,
        BASS_ERROR_TIMEOUT, BASS_ERROR_FILEOPEN, BASS_ERROR_FILEFORM,
        BASS_ERROR_UNSTREAMABLE, BASS_ERROR_NOTAUDIO, BASS_ERROR_CODEC,
        BASS_ERROR_FORMAT, BASS_ERROR_MEM] →
      ((Stream.create_from_url e url).1).isPanic = true) := by
  have hc : CString_new url = some url := by
    simp [CString_new, hnull]
  refine ⟨?_, ?_, ?_, ?_, ?_, ?_, ?_, ?_, ?_, ?_, ?_, ?_⟩ <;> intro he
  case _ => simp [Stream.create_from_url, hc, h0, he]
  case _ =>
    simp [Stream.create_from_url, hc, h0, he, BASS_ERROR_NONET, BASS_ERROR_PROTOCOL]
  case _ =>
    simp [Stream.create_from_url, hc, h0, he, BASS_ERROR_NONET, BASS_ERROR_PROTOCOL,
      BASS_ERROR_SSL]
  case _ =>
    simp [Stream.create_from_url, hc, h0, he, BASS_ERROR_NONET, BASS_ERROR_PROTOCOL,
      BASS_ERROR_SSL, BASS_ERROR_TIMEOUT]
  case _ =>
    simp [Stream.create_from_url, hc, h0, he, BASS_ERROR_NONET, BASS_ERROR_PROTOCOL,
      BASS_ERROR_SSL, BASS_ERROR_TIMEOUT, BASS_ERROR_FILEOPEN]
  case _ =>
    simp [Stream.create_from_url, hc, h0, he, BASS_ERROR_NONET, BASS_ERROR_PROTOCOL,
      BASS_ERROR_SSL, BASS_ERROR_TIMEOUT, BASS_ERROR_FILEOPEN, BASS_ERROR_FILEFORM]
  case _ =>
    simp [Stream.create_from_url, hc, h0, he, BASS_ERROR_NONET, BASS_ERROR_PROTOCOL,
      BASS_ERROR_SSL, BASS_ERROR_TIMEOUT, BASS_ERROR_FILEOPEN, BASS_ERROR_FILEFORM,
      BASS_ERROR_UNSTREAMABLE]
  case _ =>
    simp [Stream.create_from_url, hc, h0, he, BASS_ERROR_NONET, BASS_ERROR_PROTOCOL,
      BASS_ERROR_SSL, BASS_ERROR_TIMEOUT, BASS_ERROR_FILEOPEN, BASS_ERROR_FILEFORM,
      BASS_ERROR_UNSTREAMABLE, BASS_ERROR_NOTAUDIO]
  case _ =>
    simp [Stream.create_from_url, hc, h0, he, BASS_ERROR_NONET, BASS_ERROR_PROTOCOL,
      BASS_ERROR_SSL, BASS_ERROR_TIMEOUT, BASS_ERROR_FILEOPEN, BASS_ERROR_FILEFORM,
      BASS_ERROR_UNSTREAMABLE, BASS_ERROR_NOTAUDIO, BASS_ERROR_CODEC]
  case _ =>
    simp [Stream.create_from_url, hc, h0, he, BASS_ERROR_NONET, BASS_ERROR_PROTOCOL,
      BASS_ERROR_SSL, BASS_ERROR_TIMEOUT, BASS_ERROR_FILEOPEN, BASS_ERROR_FILEFORM,
      BASS_ERROR_UNSTREAMABLE, BASS_ERROR_NOTAUDIO, BASS_ERROR_CODEC, BASS_ERROR_FORMAT]
  case _ =>
    simp [Stream.create_from_url, hc, h0, he, BASS_ERROR_NONET, BASS_ERROR_PROTOCOL,
      BASS_ERROR_SSL, BASS_ERROR_TIMEOUT, BASS_ERROR_FILEOPEN, BASS_ERROR_FILEFORM,
      BASS_ERROR_UNSTREAMABLE, BASS_ERROR_NOTAUDIO, BASS_ERROR_CODEC, BASS_ERROR_FORMAT,
      BASS_ERROR_MEM]
  case _ =>
    simp only [List.mem_cons, List.not_mem_nil, or_false, not_or] at he
    obtain ⟨h1, h2, h3, h4, h5, h6, h7, h8, h9, h10, h11⟩ := he
    simp [Stream.create_from_url, hc, h0, h1, h2, h3, h4, h5, h6, h7, h8, h9, h10, h11,
      Outcome.isPanic]

/-- Witness for C3: on a mock engine that fails stream creation with the
no-internet code, `create_from_url` on the test URL returns
`NoInternetConnection`. -/
theorem create_from_url_error_mapping_witness :
    (Stream.create_from_url noNetFailEngine testUrl).1 =
      Outcome.ret (Except.error BassError.NoInternetConnection) :=
  (create_from_url_error_mapping noNetFailEngine testUrl (by decide) rfl).1 rfl

/-- Counterexample to Claim C4: it is not the case that every one of the
ten listed attributes has both a getter and a setter — the bit rate and the
sample-rate-conversion quality have getters but no setter method exists for
either. -/
theorem ten_attributes_paired_counterexample :
    (tenSpecAttributeIds.all fun a =>
      exposedGetterIds.contains a && exposedSetterIds.contains a) = false := by
  decide

/-- Claim C4 as amended: all ten listed attributes have getters keyed by
their fixed identifiers; eight of them — buffering length, sample rate,
processing granularity, resume-buffer threshold, no-buffer switch, no-ramp
switch, panning position, volume — also have setters keyed by the same
identifiers, while bit rate and sample-rate-conversion quality are
getter-only.  Each getter (resp. setter) issues exactly one
get-attribute (resp. set-attribute) engine call keyed by its fixed
identifier. -/
theorem attribute_surface_amended (e : Engine) (s : Stream) (v : Rat) :
    (Stream.get_bit_rate e s).2 =
      [EngineCall.channelGetAttribute s.handle BASS_ATTRIB_BITRATE] ∧
    (Stream.get_buffering_length e s).2 =
      [EngineCall.channelGetAttribute s.handle BASS_ATTRIB_BUFFER] ∧
    (Stream.get_sample_rate e s).2 =
      [EngineCall.channelGetAttribute s.handle BASS_ATTRIB_FREQ] ∧
    (Stream.get_processing_granularity e s).2 =
      [EngineCall.channelGetAttribute s.handle BASS_ATTRIB_GRANULE] ∧
    (Stream.get_buffer_level_required_to_resume_stalled_playback e s).2 =
      [EngineCall.channelGetAttribute s.handle BASS_ATTRIB_NET_RESUME] ∧
    (Stream.get_playback_buffering_switch e s).2 =
      [EngineCall.channelGetAttribute s.handle BASS_ATTRIB_NOBUFFER] ∧
    (Stream.get_playback_ramping_switch e s).2 =
      [EngineCall.channelGetAttribute s.handle BASS_ATTRIB_NORAMP] ∧
    (Stream.get_panning_position e s).2 =
      [EngineCall.channelGetAttribute s.handle BASS_ATTRIB_PAN] ∧
    (Stream.get_sample_rate_conversion_quality e s).2 =
      [EngineCall.channelGetAttribute s.handle BASS_ATTRIB_SRC] ∧
    (Stream.get_volume e s).2 =
      [EngineCall.channelGetAttribute s.handle BASS_ATTRIB_VOL] ∧
    (Stream.set_buffering_length e s v).2 =
      [EngineCall.channelSetAttribute s.handle BASS_ATTRIB_BUFFER v] ∧
    (Stream.set_sample_rate e s v).2 =
      [EngineCall.channelSetAttribute s.handle BASS_ATTRIB_FREQ v] ∧
    (Stream.set_processing_granularity e s v).2 =
      [EngineCall.channelSetAttribute s.handle BASS_ATTRIB_GRANULE v] ∧
    (Stream.set_buffer_level_required_to_resume_stalled_playback e s v).2 =
      [EngineCall.channelSetAttribute s.handle BASS_ATTRIB_NET_RESUME v] ∧
    (Stream.set_playback_buffering_switch e s v).2 =
      [EngineCall.channelSetAttribute s.handle BASS_ATTRIB_NOBUFFER v] ∧
    (Stream.set_playback_ramping_switch e s v).2 =
      [EngineCall.channelSetAttribute s.handle BASS_ATTRIB_NORAMP v] ∧
    (Stream.set_panning_position e s v).2 =
      [EngineCall.channelSetAttribute s.handle BASS_ATTRIB_PAN v] ∧
    (Stream.set_volume e s v).2 =
      [EngineCall.channelSetAttribute s.handle BASS_ATTRIB_VOL v] ∧
    (tenSpecAttributeIds.all fun a => exposedGetterIds.contains a) = true ∧
    (exposedSetterIds.all fun a => exposedGetterIds.contains a) = true ∧
    exposedSetterIds.count BASS_ATTRIB_BITRATE = 0 ∧
    exposedSetterIds.count BASS_ATTRIB_SRC = 0 := by
  refine ⟨rfl, rfl, rfl, rfl, rfl, rfl, rfl, rfl, rfl, rfl,
    rfl, rfl, rfl, rfl, rfl, rfl, rfl, rfl, ?_, ?_, ?_, ?_⟩ <;> decide

/-- Claim C5: `get_time` first obtains the byte position via `get_position`
and then invokes the engine's byte-to-seconds conversion with exactly that
position, returning the conversion's result unchanged: if the engine
reports position `P` and converts `P` to `T` seconds, `get_time` returns
`T`, and its call trace is exactly the get-position call followed by the
byte-to-seconds call at `P`. -/
theorem get_time_composes_position_conversion (e : Engine) (s : Stream)
    (P : Nat) (T : Rat)
    (hP : e.channelGetPosition s.handle 0 = P)
    (hT : e.channelBytes2Seconds s.handle P = T) :
    (Stream.get_position e s).1 = P ∧
    (Stream.get_time e s).1 = T ∧
    (Stream.get_time e s).2 =
      [EngineCall.channelGetPosition s.handle 0,
       EngineCall.channelBytes2Seconds s.handle P] := by
  refine ⟨hP, ?_, ?_⟩ <;>
    simp [Stream.get_time, Stream.get_position, hP, hT]

/-- Witness for C5: on the benign mock engine, which reports byte position
1000 and converts byte `p` to `p / 44100` seconds, `get_time` of the test
stream returns `1000 / 44100` seconds. -/
theorem get_time_composes_position_conversion_witness :
    (Stream.get_time baseEngine testStream).1 = 1000 / 44100 :=
  (get_time_composes_position_conversion baseEngine testStream 1000 (1000 / 44100)
    rfl (by norm_num [baseEngine])).2.1

/-- Claim C6: `play` maps an engine channel-play failure with the
cannot-start code to `OutputIsPausedOrStopped` and `panic!`s on any other
failure code; `pause` maps a channel-pause failure with the
not-currently-playing code to `StreamIsNotPlaying` and `panic!`s on any
other failure code; on engine success both return `Ok(())`. -/
theorem play_pause_error_mapping (e : Engine) (s : Stream) :
    (e.channelPlay s.handle 0 ≠ 0 →
      (Stream.play e s).1 = Outcome.ret (Except.ok ())) ∧
    (e.channelPlay s.handle 0 = 0 → e.errorGetCode = BASS_ERROR_START →
      (Stream.play e s).1 =
        Outcome.ret (Except.error BassError.OutputIsPausedOrStopped)) ∧
    (e.channelPlay s.handle 0 = 0 → e.errorGetCode ≠ BASS_ERROR_START →
      ((Stream.play e s).1).isPanic = true) ∧
    (e.channelPause s.handle ≠ 0 →
      (Stream.pause e s).1 = Outcome.ret (Except.ok ())) ∧
    (e.channelPause s.handle = 0 → e.errorGetCode = BASS_ERROR_NOPLAY →
      (Stream.pause e s).1 =
        Outcome.ret (Except.error BassError.StreamIsNotPlaying)) ∧
    (e.channelPause s.handle = 0 → e.errorGetCode ≠ BASS_ERROR_NOPLAY →
      ((Stream.pause e s).1).isPanic = true) := by
  refine ⟨?_, ?_, ?_, ?_, ?_, ?_⟩
  · intro h; simp [Stream.play, h]
  · intro h he; simp [Stream.play, h, he]
  · intro h he; simp [Stream.play, h, he, Outcome.isPanic]
  · intro h; simp [Stream.pause, h]
  · intro h he; simp [Stream.pause, h, he]
  · intro h he; simp [Stream.pause, h, he, Outcome.isPanic]

/-- Witness for C6: on mock engines that fail channel-play with the
cannot-start code, resp. channel-pause with the not-playing code, `play`
returns `OutputIsPausedOrStopped` and `pause` returns `StreamIsNotPlaying`;
on the benign mock engine both return `Ok(())`. -/
theorem play_pause_error_mapping_witness :
    (Stream.play playFailEngine testStream).1 =
      Outcome.ret (Except.error BassError.OutputIsPausedOrStopped) ∧
    (Stream.pause pauseFailEngine testStream).1 =
      Outcome.ret (Except.error BassError.StreamIsNotPlaying) ∧
    (Stream.play baseEngine testStream).1 = Outcome.ret (Except.ok ()) ∧
    (Stream.pause baseEngine testStream).1 = Outcome.ret (Except.ok ()) :=
  ⟨(play_pause_error_mapping playFailEngine testStream).2.1 rfl rfl,
   (play_pause_error_mapping pauseFailEngine testStream).2.2.2.2.1 rfl rfl,
   (play_pause_error_mapping baseEngine testStream).1 (by decide),
   (play_pause_error_mapping baseEngine testStream).2.2.2.1 (by decide)⟩

/-- Claim C7: a non-success engine result from `stop`, `lock` or `unlock`
always `panic!`s; on success `stop` returns `Ok(())` and `lock`/`unlock`
return unit, and `stop` never returns a typed error value for any engine
behaviour (`lock` and `unlock` cannot by their return type, which carries
no error variant). -/
theorem stop_lock_unlock_fatal (e : Engine) (s : Stream) :
    (e.channelStop s.handle = 0 → ((Stream.stop e s).1).isPanic = true) ∧
    (e.channelStop s.handle ≠ 0 →
      (Stream.stop e s).1 = Outcome.ret (Except.ok ())) ∧
    (e.channelLock s.handle 1 = 0 → ((Stream.lock e s).1).isPanic = true) ∧
    (e.channelLock s.handle 0 = 0 → ((Stream.unlock e s).1).isPanic = true) ∧
    (∀ err : BassError,
      (Stream.stop e s).1 ≠ Outcome.ret (Except.error err)) := by
  refine ⟨?_, ?_, ?_, ?_, ?_⟩
  · intro h; simp [Stream.stop, h, Outcome.isPanic]
  · intro h; simp [Stream.stop, h]
  · intro h; simp [Stream.lock, h, Outcome.isPanic]
  · intro h; simp [Stream.unlock, h, Outcome.isPanic]
  · intro err
    by_cases h : e.channelStop s.handle = 0 <;> simp [Stream.stop, h]

/-- Witness for C7: on a mock engine whose stop and lock calls all fail,
`stop`, `lock` and `unlock` of the test stream all end in a `panic!`. -/
theorem stop_lock_unlock_fatal_witness :
    ((Stream.stop transportFailEngine testStream).1).isPanic = true ∧
    ((Stream.lock transportFailEngine testStream).1).isPanic = true ∧
    ((Stream.unlock transportFailEngine testStream).1).isPanic = true ∧
    (Stream.stop baseEngine testStream).1 = Outcome.ret (Except.ok ()) :=
  ⟨(stop_lock_unlock_fatal transportFailEngine testStream).1 rfl,
   (stop_lock_unlock_fatal transportFailEngine testStream).2.2.1 rfl,
   (stop_lock_unlock_fatal transportFailEngine testStream).2.2.2.1 rfl,
   (stop_lock_unlock_fatal baseEngine testStream).2.1 (by decide)⟩

/-- Claim C8: the destructor body run when a `Stream` goes out of scope
issues the free-stream operation exactly once, with the stream's own handle
as argument, and no other engine call; Rust's ownership discipline runs
this destructor exactly once per `Stream` value on every exit path, so no
second free of the handle is ever issued. -/
theorem drop_frees_own_handle_once (e : Engine) (s : Stream) :
    (Stream.drop e s).2 = [EngineCall.streamFree s.handle] ∧
    ((Stream.drop e s).2.filter fun c => c.isStreamFree).length = 1 ∧
    (Stream.drop e s).2.count (EngineCall.streamFree s.handle) = 1 := by
  refine ⟨rfl, ?_, ?_⟩ <;>
    simp [Stream.drop, EngineCall.isStreamFree, List.count_cons]

/-- Claim C9: every attribute getter returns `0.0` whenever the engine's
get-attribute call fails, propagating no error; and every attribute setter
invokes set-attribute with exactly its fixed attribute identifier and the
caller-supplied value, returning unit for every engine behaviour — success
or failure of the engine call is never surfaced. -/
theorem attribute_accessors_best_effort (e : Engine) (s : Stream) (v : Rat) :
    (e.channelGetAttribute s.handle BASS_ATTRIB_BITRATE = none →
      (Stream.get_bit_rate e s).1 = 0) ∧
    (e.channelGetAttribute s.handle BASS_ATTRIB_BUFFER = none →
      (Stream.get_buffering_length e s).1 = 0) ∧
    (e.channelGetAttribute s.handle BASS_ATTRIB_FREQ = none →
      (Stream.get_sample_rate e s).1 = 0) ∧
    (e.channelGetAttribute s.handle BASS_ATTRIB_GRANULE = none →
      (Stream.get_processing_granularity e s).1 = 0) ∧
    (e.channelGetAttribute s.handle BASS_ATTRIB_NET_RESUME = none →
      (Stream.get_buffer_level_required_to_resume_stalled_playback e s).1 = 0) ∧
    (e.channelGetAttribute s.handle BASS_ATTRIB_NOBUFFER = none →
      (Stream.get_playback_buffering_switch e s).1 = 0) ∧
    (e.channelGetAttribute s.handle BASS_ATTRIB_NORAMP = none →
      (Stream.get_playback_ramping_switch e s).1 = 0) ∧
    (e.channelGetAttribute s.handle BASS_ATTRIB_PAN = none →
      (Stream.get_panning_position e s).1 = 0) ∧
    (e.channelGetAttribute s.handle BASS_ATTRIB_SRC = none →
      (Stream.get_sample_rate_conversion_quality e s).1 = 0) ∧
    (e.channelGetAttribute s.handle BASS_ATTRIB_VOL = none →
      (Stream.get_volume e s).1 = 0) ∧
    Stream.set_buffering_length e s v =
      ((), [EngineCall.channelSetAttribute s.handle BASS_ATTRIB_BUFFER v]) ∧
    Stream.set_sample_rate e s v =
      ((), [EngineCall.channelSetAttribute s.handle BASS_ATTRIB_FREQ v]) ∧
    Stream.set_processing_granularity e s v =
      ((), [EngineCall.channelSetAttribute s.handle BASS_ATTRIB_GRANULE v]) ∧
    Stream.set_buffer_level_required_to_resume_stalled_playback e s v =
      ((), [EngineCall.channelSetAttribute s.handle BASS_ATTRIB_NET_RESUME v]) ∧
    Stream.set_playback_buffering_switch e s v =
      ((), [EngineCall.channelSetAttribute s.handle BASS_ATTRIB_NOBUFFER v]) ∧
    Stream.set_playback_ramping_switch e s v =
      ((), [EngineCall.channelSetAttribute s.handle BASS_ATTRIB_NORAMP v]) ∧
    Stream.set_panning_position e s v =
      ((), [EngineCall.channelSetAttribute s.handle BASS_ATTRIB_PAN v]) ∧
    Stream.set_volume e s v =
      ((), [EngineCall.channelSetAttribute s.handle BASS_ATTRIB_VOL v]) := by
  refine ⟨?_, ?_, ?_, ?_, ?_, ?_, ?_, ?_, ?_, ?_,
    rfl, rfl, rfl, rfl, rfl, rfl, rfl, rfl⟩ <;> intro h
  · simp [Stream.get_bit_rate, h]
  · simp [Stream.get_buffering_length, h]
  · simp [Stream.get_sample_rate, h]
  · simp [Stream.get_processing_granularity, h]
  · simp [Stream.get_buffer_level_required_to_resume_stalled_playback, h]
  · simp [Stream.get_playback_buffering_switch, h]
  · simp [Stream.get_playback_ramping_switch, h]
  · simp [Stream.get_panning_position, h]
  · simp [Stream.get_sample_rate_conversion_quality, h]
  · simp [Stream.get_volume, h]

/-- Witness for C9: on a mock engine whose get-attribute call always fails,
all ten getters of the test stream return `0.0`, and `set_volume` with
value 1 issues exactly one set-attribute call keyed by the volume
identifier. -/
theorem attribute_accessors_best_effort_witness :
    (Stream.get_bit_rate attribFailEngine testStream).1 = 0 ∧
    (Stream.get_buffering_length attribFailEngine testStream).1 = 0 ∧
    (Stream.get_sample_rate attribFailEngine testStream).1 = 0 ∧
    (Stream.get_processing_granularity attribFailEngine testStream).1 = 0 ∧
    (Stream.get_buffer_level_required_to_resume_stalled_playback attribFailEngine testStream).1 = 0 ∧
    (Stream.get_playback_buffering_switch attribFailEngine testStream).1 = 0 ∧
    (Stream.get_playback_ramping_switch attribFailEngine testStream).1 = 0 ∧
    (Stream.get_panning_position attribFailEngine testStream).1 = 0 ∧
    (Stream.get_sample_rate_conversion_quality attribFailEngine testStream).1 = 0 ∧
    (Stream.get_volume attribFailEngine testStream).1 = 0 ∧
    Stream.set_volume attribFailEngine testStream 1 =
      ((), [EngineCall.channelSetAttribute testStream.handle BASS_ATTRIB_VOL 1]) :=
  ⟨(attribute_accessors_best_effort attribFailEngine testStream 1).1 rfl,
   (attribute_accessors_best_effort attribFailEngine testStream 1).2.1 rfl,
   (attribute_accessors_best_effort attribFailEngine testStream 1).2.2.1 rfl,
   (attribute_accessors_best_effort attribFailEngine testStream 1).2.2.2.1 rfl,
   (attribute_accessors_best_effort attribFailEngine testStream 1).2.2.2.2.1 rfl,
   (attribute_accessors_best_effort attribFailEngine testStream 1).2.2.2.2.2.1 rfl,
   (attribute_accessors_best_effort attribFailEngine testStream 1).2.2.2.2.2.2.1 rfl,
   (attribute_accessors_best_effort attribFailEngine testStream 1).2.2.2.2.2.2.2.1 rfl,
   (attribute_accessors_best_effort attribFailEngine testStream 1).2.2.2.2.2.2.2.2.1 rfl,
   (attribute_accessors_best_effort attribFailEngine testStream 1).2.2.2.2.2.2.2.2.2.1 rfl,
   (attribute_accessors_best_effort attribFailEngine testStream 1).2.2.2.2.2.2.2.2.2.2.2.2.2.2.2.2.2⟩

/-- Claim C10: for every input byte string containing a null byte, both
`create_from_file` and `create_from_url` `panic!` while converting the text
to a native C string (the `unwrap` on `CString::new`), return neither an
`Ok(Stream)` nor a typed `BassError`, and never reach the engine (empty
call trace). -/
theorem interior_null_byte_panics (e : Engine) (bytes : List Nat)
    (h : (0 : Nat) ∈ bytes) :
    ((Stream.create_from_file e bytes).1).isPanic = true ∧
    ((Stream.create_from_url e bytes).1).isPanic = true ∧
    (Stream.create_from_file e bytes).2 = [] ∧
    (Stream.create_from_url e bytes).2 = [] := by
  have hc : CString_new bytes = none := by simp [CString_new, h]
  refine ⟨?_, ?_, ?_, ?_⟩ <;>
    simp [Stream.create_from_file, Stream.create_from_url, hc, Outcome.isPanic]

/-- Witness for C10: on the byte string "h\x00i" (which contains an interior
null byte), both constructors `panic!` even on the benign mock engine. -/
theorem interior_null_byte_panics_witness :
    ((Stream.create_from_file baseEngine nullBytes).1).isPanic = true ∧
    ((Stream.create_from_url baseEngine nullBytes).1).isPanic = true :=
  ⟨(interior_null_byte_panics baseEngine nullBytes (by decide)).1,
   (interior_null_byte_panics baseEngine nullBytes (by decide)).2.1⟩

end BassRs
